import Mathlib

/-!
# The submit handler of `frontend/app.js`

A shallow embedding of the one event handler of the churn-prediction front end:
validation of two form fields, construction of the request payload, the loading
state of the submit button, the request, and the rendering of the result.

What the embedding covers and how.

* One run of the handler, from the submit event to the end of the `finally` block,
  with no other event interleaved.  The way the awaited `fetch` settles is an
  input (`FetchOutcome`); a fetch that never settles is a run that never finishes
  and has no final world.
* The six elements the handler looks up exist; the page is a record of the
  properties the handler reads or writes.  `alert`, `console.error`, `fetch` and
  `scrollIntoView` are recorded in the world.
* Form values are strings (no file inputs).  The object built by
  `Object.fromEntries` is the list of its own properties.
* Numbers are IEEE-754 binary64 values, held exactly; decimal literals and products
  round to nearest, ties to even.  `parseInt`, `parseFloat`, string-to-number
  coercion, `Number.prototype.toFixed` and `Number::toString` follow ECMAScript;
  where ECMAScript leaves the last digit of `Number::toString` open, the digits
  closest to the value are taken.
* The parsed response is seen through the two properties the handler reads, each
  a primitive value or `undefined`.
* An assignment to `style.width` is parsed by the browser, and what the property
  reads afterwards is the browser's serialisation, which differs between browsers
  on long or exponent-form numbers.  The parser is therefore an input (`css`) of
  the render step and of the handler; every statement holds for every parser.
-/

set_option maxRecDepth 100000
set_option exponentiation.threshold 2000

namespace Churn

/-! ## JavaScript Number values (IEEE-754 binary64)

A finite Number is a sign together with a magnitude `m * 2 ^ e`.  Every function
below that produces a finite Number produces it in canonical form: either
`m = 0` and `e = 0`, or `2^52 ≤ m < 2^53` with `-1074 ≤ e ≤ 971`, or
`0 < m < 2^52` with `e = -1074` (subnormal). -/

inductive JSNumber where
  | nan
  | inf (neg : Bool)
  | fin (neg : Bool) (m : Nat) (e : Int)
deriving DecidableEq

def bitLenAux : Nat → Nat → Nat
  | 0, _ => 0
  | fuel + 1, n => if n = 0 then 0 else bitLenAux fuel (n / 2) + 1

/-- Number of binary digits of `n`. -/
def bitLen (n : Nat) : Nat := bitLenAux n n

/-- The fraction `n / d` multiplied by `2 ^ k`, as a numerator and a denominator. -/
def scaleBy (n d : Nat) (k : Int) : Nat × Nat :=
  match k with
  | Int.ofNat j => (n * 2 ^ j, d)
  | Int.negSucc j => (n, d * 2 ^ (j + 1))

/-- Nearest integer to `n / d`, ties to even. -/
def roundHalfEven (n d : Nat) : Nat :=
  let q := n / d
  let r := n % d
  if 2 * r < d then q
  else if d < 2 * r then q + 1
  else if q % 2 = 0 then q else q + 1

/-- The Number value for the real `(n / d) * 2 ^ x` with the given sign:
round to nearest binary64, ties to even, overflow to infinity. -/
def roundMag (neg : Bool) (n d : Nat) (x : Int) : JSNumber :=
  if n = 0 then JSNumber.fin neg 0 0
  else
    let e1 : Int := (bitLen n : Int) - (bitLen d : Int) - 52 + x
    let s1 := scaleBy n d (x - e1)
    let e2 : Int := if s1.1 < 2 ^ 52 * s1.2 then e1 - 1 else e1
    let e3 : Int := if e2 < -1074 then -1074 else e2
    let s3 := scaleBy n d (x - e3)
    let m := roundHalfEven s3.1 s3.2
    if m = 0 then JSNumber.fin neg 0 0
    else
      let me : Nat × Int := if m = 2 ^ 53 then (2 ^ 52, e3 + 1) else (m, e3)
      if 971 < me.2 then JSNumber.inf neg else JSNumber.fin neg me.1 me.2

/-- The Number value for the decimal `m * 10 ^ e` with the given sign. -/
def ofDecimal (neg : Bool) (m : Nat) (e : Int) : JSNumber :=
  match e with
  | Int.ofNat j => roundMag neg (m * 10 ^ j) 1 0
  | Int.negSucc j => roundMag neg m (10 ^ (j + 1)) 0

/-- The Number value of a non-negative integer. -/
def ofNat (n : Nat) : JSNumber := roundMag false n 1 0

/-- Number::multiply. -/
def JSNumber.mul : JSNumber → JSNumber → JSNumber
  | JSNumber.nan, _ => JSNumber.nan
  | _, JSNumber.nan => JSNumber.nan
  | JSNumber.inf s, JSNumber.inf t => JSNumber.inf (s != t)
  | JSNumber.inf s, JSNumber.fin t m _ => if m = 0 then JSNumber.nan else JSNumber.inf (s != t)
  | JSNumber.fin s m _, JSNumber.inf t => if m = 0 then JSNumber.nan else JSNumber.inf (s != t)
  | JSNumber.fin s m e, JSNumber.fin t n f => roundMag (s != t) (m * n) 1 (e + f)

/-- Whether `m * 2 ^ e < n * 2 ^ f`. -/
def magLt (m : Nat) (e : Int) (n : Nat) (f : Int) : Bool :=
  let a := scaleBy m 1 (e - min e f)
  let b := scaleBy n 1 (f - min e f)
  decide (a.1 * b.2 < b.1 * a.2)

/-- Number::lessThan; a comparison with NaN is undefined, which `<` turns into false. -/
def JSNumber.lt : JSNumber → JSNumber → Bool
  | JSNumber.nan, _ => false
  | _, JSNumber.nan => false
  | JSNumber.inf s, JSNumber.inf t => s && !t
  | JSNumber.inf s, JSNumber.fin _ _ _ => s
  | JSNumber.fin _ _ _, JSNumber.inf t => !t
  | JSNumber.fin s m e, JSNumber.fin t n f =>
    match s, t with
    | false, false => magLt m e n f
    | true, true => magLt n f m e
    | true, false => decide (m ≠ 0 ∨ n ≠ 0)
    | false, true => false

/-! ## Decimal digit strings -/

def digitChar (d : Nat) : Char := Char.ofNat (48 + d)

def natDigitsAux : Nat → Nat → List Char
  | 0, _ => []
  | fuel + 1, n =>
    if n < 10 then [digitChar n] else natDigitsAux fuel (n / 10) ++ [digitChar (n % 10)]

/-- Decimal digits of `n`, most significant first; `0` is written "0". -/
def natDigits (n : Nat) : List Char := natDigitsAux (n + 1) n

/-! ## Number::toString and Number.prototype.toFixed -/

/-- Least `j ≤ fuel` with `10 ^ j * n ≥ d`, for a fraction `n / d` below one. -/
def leadShift : Nat → Nat → Nat → Nat
  | 0, _, _ => 0
  | fuel + 1, n, d => if d ≤ n then 0 else leadShift fuel (10 * n) d + 1

/-- The integer `p` with `10 ^ (p - 1) ≤ n / d < 10 ^ p`, for `n / d > 0`. -/
def decimalPoint (n d : Nat) : Int :=
  if d ≤ n then ((natDigits (n / d)).length : Int)
  else 1 - (leadShift 400 n d : Int)

/-- The fraction `n / d` multiplied by `10 ^ k`. -/
def scale10 (n d : Nat) (k : Int) : Nat × Nat :=
  match k with
  | Int.ofNat j => (n * 10 ^ j, d)
  | Int.negSucc j => (n, d * 10 ^ (j + 1))

/-- Candidate digit strings of length `k` for the finite positive Number `x = n / d`:
the two `k`-digit decimals around `x`; one is kept when it converts back to `x`,
and when both do, the closer one. -/
def shortestAt (x : JSNumber) (n d : Nat) (p : Int) (k : Nat) : Option (Nat × Int) :=
  let s := scale10 n d ((k : Int) - p)
  let lo := s.1 / s.2
  let hi := lo + 1
  let okLo := decide (ofDecimal false lo (p - k) = x) && decide (10 ^ (k - 1) ≤ lo)
  let okHi := decide (ofDecimal false hi (p - k) = x)
  let hiN : Nat × Int := if hi = 10 ^ k then (10 ^ (k - 1), p + 1) else (hi, p)
  if okLo && okHi then
    (if 2 * (s.1 % s.2) ≤ s.2 then some (lo, p) else some hiN)
  else if okLo then some (lo, p)
  else if okHi then some hiN
  else none

def shortestFrom (x : JSNumber) (n d : Nat) (p : Int) : Nat → Nat → Option (Nat × Int)
  | 0, _ => none
  | fuel + 1, k =>
    match shortestAt x n d p k with
    | some r => some r
    | none => shortestFrom x n d p fuel (k + 1)

def zeros (n : Nat) : List Char := List.replicate n '0'

/-- Number::toString for a finite positive magnitude `m * 2 ^ e`, radix 10. -/
def magToString (m : Nat) (e : Int) : List Char :=
  let q := scaleBy m 1 e
  let p := decimalPoint q.1 q.2
  match shortestFrom (JSNumber.fin false m e) q.1 q.2 p 17 1 with
  | none => []
  | some (s, n) =>
    let ds := natDigits s
    let k := ds.length
    if (k : Int) ≤ n ∧ n ≤ 21 then ds ++ zeros (n - k).toNat
    else if 0 < n ∧ n ≤ 21 then ds.take n.toNat ++ ['.'] ++ ds.drop n.toNat
    else if -6 < n ∧ n ≤ 0 then ['0', '.'] ++ zeros (-n).toNat ++ ds
    else
      let ex := (if n - 1 < 0 then ['-'] else ['+']) ++ natDigits (n - 1).natAbs
      if k = 1 then ds ++ ['e'] ++ ex
      else ds.take 1 ++ ['.'] ++ ds.drop 1 ++ ['e'] ++ ex

/-- Number::toString, radix 10. -/
def numberToString : JSNumber → List Char
  | JSNumber.nan => "NaN".toList
  | JSNumber.inf false => "Infinity".toList
  | JSNumber.inf true => "-Infinity".toList
  | JSNumber.fin neg m e =>
    if m = 0 then ['0']
    else (if neg then ['-'] else []) ++ magToString m e

/-- The digits of step 11 of Number.prototype.toFixed: the decimal digits of `n`
with a point inserted before the last `f` of them, padded with zeros. -/
def fixedDigits (n f : Nat) : List Char :=
  let ds := natDigits n
  if f = 0 then ds
  else
    let padded := if ds.length ≤ f then zeros (f + 1 - ds.length) ++ ds else ds
    padded.take (padded.length - f) ++ ['.'] ++ padded.drop (padded.length - f)

/-- The integer `n` for which `n / 10 ^ f - m * 2 ^ e` is closest to zero, the
larger one when there are two. -/
def fixedInt (m : Nat) (e : Int) (f : Nat) : Nat :=
  let q := scaleBy (m * 10 ^ f) 1 e
  (2 * q.1 + q.2) / (2 * q.2)

/-- Number.prototype.toFixed(f) for `0 ≤ f ≤ 100`. -/
def toFixed (x : JSNumber) (f : Nat) : List Char :=
  match x with
  | JSNumber.fin neg m e =>
    let s := if neg ∧ m ≠ 0 then ['-'] else []
    let q := scaleBy m 1 e
    if 10 ^ 21 * q.2 ≤ q.1 then s ++ magToString m e
    else s ++ fixedDigits (fixedInt m e f) f
  | _ => numberToString x

/-! ## String to Number conversions -/

/-- WhiteSpace and LineTerminator code points. -/
def isWhiteSpace (c : Char) : Bool :=
  let n := c.toNat
  n = 0x09 || n = 0x0A || n = 0x0B || n = 0x0C || n = 0x0D || n = 0x20 || n = 0xA0
    || n = 0x1680 || (0x2000 ≤ n && n ≤ 0x200A) || n = 0x2028 || n = 0x2029
    || n = 0x202F || n = 0x205F || n = 0x3000 || n = 0xFEFF

def isDecDigit (c : Char) : Bool := 48 ≤ c.toNat && c.toNat ≤ 57

/-- Value of a digit in radix up to 16, when the character is one. -/
def digitValue (c : Char) : Option Nat :=
  let n := c.toNat
  if 48 ≤ n ∧ n ≤ 57 then some (n - 48)
  else if 97 ≤ n ∧ n ≤ 102 then some (n - 87)
  else if 65 ≤ n ∧ n ≤ 70 then some (n - 55)
  else none

def isRadixDigit (r : Nat) (c : Char) : Bool :=
  match digitValue c with
  | some v => decide (v < r)
  | none => false

def digitsValue (r : Nat) (cs : List Char) : Nat :=
  cs.foldl (fun acc c => r * acc + (digitValue c).getD 0) 0

def trimStart (cs : List Char) : List Char := cs.dropWhile isWhiteSpace

def trimEnd (cs : List Char) : List Char := (cs.reverse.dropWhile isWhiteSpace).reverse

/-- Remove the leading characters `p` from `cs` when `cs` starts with them. -/
def stripLead : List Char → List Char → Option (List Char)
  | [], cs => some cs
  | _ :: _, [] => none
  | p :: ps, c :: cs => if p = c then stripLead ps cs else none

/-- Magnitude of a StrUnsignedDecimalLiteral. -/
inductive Mag where
  | infinity
  | dec (m : Nat) (e : Int)
deriving DecidableEq

/-- The ExponentPart at the head of `cs`, when there is one: its value and the rest. -/
def exponentPart (cs : List Char) : Int × List Char :=
  match cs with
  | [] => (0, cs)
  | c :: rest =>
    if c = 'e' ∨ c = 'E' then
      let sr : Bool × List Char :=
        match rest with
        | '+' :: r => (false, r)
        | '-' :: r => (true, r)
        | _ => (false, rest)
      let ds := sr.2.takeWhile isDecDigit
      if ds = [] then (0, cs)
      else ((if sr.1 then -(digitsValue 10 ds : Int) else (digitsValue 10 ds : Int)),
            sr.2.dropWhile isDecDigit)
    else (0, cs)

/-- The longest StrUnsignedDecimalLiteral at the head of `cs`: its magnitude and the rest. -/
def unsignedDecimal (cs : List Char) : Option (Mag × List Char) :=
  match stripLead "Infinity".toList cs with
  | some rest => some (Mag.infinity, rest)
  | none =>
    let ip := cs.takeWhile isDecDigit
    let r1 := cs.dropWhile isDecDigit
    let fr : List Char × List Char :=
      match r1 with
      | '.' :: r => (r.takeWhile isDecDigit, r.dropWhile isDecDigit)
      | _ => ([], r1)
    if ip = [] ∧ fr.1 = [] then none
    else
      let ex := exponentPart fr.2
      some (Mag.dec (digitsValue 10 (ip ++ fr.1)) (ex.1 - (fr.1.length : Int)), ex.2)

def magValue (neg : Bool) : Mag → JSNumber
  | Mag.infinity => JSNumber.inf neg
  | Mag.dec m e => ofDecimal neg m e

/-- The longest StrDecimalLiteral at the head of `cs`: its Number value and the rest. -/
def strDecimal (cs : List Char) : Option (JSNumber × List Char) :=
  match cs with
  | '+' :: r => (unsignedDecimal r).map (fun p => (magValue false p.1, p.2))
  | '-' :: r => (unsignedDecimal r).map (fun p => (magValue true p.1, p.2))
  | _ => (unsignedDecimal cs).map (fun p => (magValue false p.1, p.2))

/-- Value of a NonDecimalIntegerLiteral (0b, 0o, 0x), when `cs` is one. -/
def nonDecimal (cs : List Char) : Option JSNumber :=
  match cs with
  | '0' :: c :: ds =>
    let r : Nat :=
      if c = 'x' ∨ c = 'X' then 16
      else if c = 'o' ∨ c = 'O' then 8
      else if c = 'b' ∨ c = 'B' then 2
      else 0
    if r ≠ 0 ∧ ds ≠ [] ∧ ds.all (isRadixDigit r) then some (ofNat (digitsValue r ds)) else none
  | _ => none

/-- StringToNumber: the Number a string coerces to in `<`, `*` and the like. -/
def stringToNumber (s : String) : JSNumber :=
  let t := trimEnd (trimStart s.toList)
  if t = [] then JSNumber.fin false 0 0
  else
    match nonDecimal t with
    | some v => v
    | none =>
      match strDecimal t with
      | some (v, []) => v
      | _ => JSNumber.nan

/-- The global parseFloat applied to a string. -/
def parseFloat (s : String) : JSNumber :=
  match strDecimal (trimStart s.toList) with
  | some (v, _) => v
  | none => JSNumber.nan

/-- The global parseInt applied to a string, radix argument omitted. -/
def parseInt (s : String) : JSNumber :=
  let t := trimStart s.toList
  let sr : Bool × List Char :=
    match t with
    | '-' :: r => (true, r)
    | '+' :: r => (false, r)
    | _ => (false, t)
  let rr : Nat × List Char :=
    match sr.2 with
    | '0' :: 'x' :: r => (16, r)
    | '0' :: 'X' :: r => (16, r)
    | _ => (10, sr.2)
  let z := rr.2.takeWhile (isRadixDigit rr.1)
  if z = [] then JSNumber.nan
  else roundMag sr.1 (digitsValue rr.1 z) 1 0

/-! ## Values, objects and the form -/

/-- The JavaScript values the handler reads from the parsed response. -/
inductive JSValue where
  | undefined
  | null
  | bool (b : Bool)
  | number (x : JSNumber)
  | string (s : String)
deriving DecidableEq

/-- The Number `+0`. -/
def zero : JSNumber := JSNumber.fin false 0 0

/-- ToNumber. -/
def toNumber : JSValue → JSNumber
  | JSValue.undefined => JSNumber.nan
  | JSValue.null => zero
  | JSValue.bool b => if b then ofNat 1 else zero
  | JSValue.number x => x
  | JSValue.string s => stringToNumber s

/-- Property read `o.k` on an object given by its own properties: `none` is `undefined`. -/
def getProp {α : Type} : List (String × α) → String → Option α
  | [], _ => none
  | (k', v) :: o, k => if k' = k then some v else getProp o k

/-- Property definition: an existing key keeps its place, a new key goes last. -/
def setProp {α : Type} : List (String × α) → String → α → List (String × α)
  | [], k, v => [(k, v)]
  | (k', v') :: o, k, v => if k' = k then (k', v) :: o else (k', v') :: setProp o k v

/-- Object.fromEntries over the entries of a FormData whose values are strings. -/
def fromEntries (entries : List (String × String)) : List (String × String) :=
  entries.foldl (fun o kv => setProp o kv.1 kv.2) []

/-- ToBoolean negated, on a property that is a string or undefined: `!v`. -/
def falsy : Option String → Bool
  | none => true
  | some s => decide (s = "")

/-- The comparison `v < 0` on a property that is a string or undefined. -/
def ltZero : Option String → Bool
  | none => JSNumber.lt JSNumber.nan zero
  | some s => JSNumber.lt (stringToNumber s) zero

/-- ToString on a property that is a string or undefined. -/
def jsToString : Option String → String
  | none => "undefined"
  | some s => s

/-- Line 18: the guard on tenure. -/
def tenureGuard (data : List (String × String)) : Bool :=
  falsy (getProp data "tenure") || ltZero (getProp data "tenure")

/-- Line 22: the guard on MonthlyCharges. -/
def monthlyGuard (data : List (String × String)) : Bool :=
  falsy (getProp data "MonthlyCharges") || ltZero (getProp data "MonthlyCharges")

/-- Lines 29-38: the object literal that spreads data and then defines four keys. -/
def payload (data : List (String × String)) : List (String × JSValue) :=
  let spread := data.map (fun kv => (kv.1, JSValue.string kv.2))
  let p1 := setProp spread "SeniorCitizen"
    (JSValue.number (parseInt (jsToString (getProp data "SeniorCitizen"))))
  let p2 := setProp p1 "tenure" (JSValue.number (parseInt (jsToString (getProp data "tenure"))))
  let p3 := setProp p2 "MonthlyCharges"
    (JSValue.number (parseFloat (jsToString (getProp data "MonthlyCharges"))))
  setProp p3 "TotalCharges"
    (if falsy (getProp data "TotalCharges") then JSValue.number zero
     else JSValue.number (parseFloat (jsToString (getProp data "TotalCharges"))))

/-! ## The page, the network and the handler -/

structure Button where
  innerText : String
  disabled : Bool
  opacity : String
deriving DecidableEq

structure ResultCard where
  display : String
  classList : List String
deriving DecidableEq

structure RiskBadge where
  innerText : String
  classList : List String
deriving DecidableEq

structure MeterFill where
  width : String
  backgroundColor : String
deriving DecidableEq

/-- The six elements the handler looks up; probText and resultExplanation are
their innerText. -/
structure Page where
  submitBtn : Button
  resultCard : ResultCard
  riskBadge : RiskBadge
  probText : String
  meterFill : MeterFill
  resultExplanation : String
deriving DecidableEq

/-- A call of fetch; the body sent is JSON.stringify of `payload`. -/
structure Request where
  url : String
  method : String
  contentType : String
  payload : List (String × JSValue)
deriving DecidableEq

/-- What the catch block receives. -/
inductive JSError where
  | network
  | status (code : Nat)
  | json
  | type
deriving DecidableEq

/-- What `response.json()` gives: a rejection, the value null, or any other value,
seen through the two properties the handler reads (undefined when absent). -/
inductive Body where
  | invalid
  | null
  | result (churn_probability risk_category : JSValue)
deriving DecidableEq

/-- How the awaited fetch settles. -/
inductive FetchOutcome where
  | rejected
  | response (status : Nat) (body : Body)
deriving DecidableEq

/-- Response.ok: the status is in the range 200 to 299. -/
def responseOk (status : Nat) : Bool := decide (200 ≤ status ∧ status ≤ 299)

structure World where
  page : Page
  alerts : List String
  requests : List Request
  consoleErrors : List JSError
  scrolls : Nat
  defaultPrevented : Bool
deriving DecidableEq

def API_URL : String := "http://localhost:8000"

def tenureAlert : String := "Please enter a valid number for Time with Company."

def monthlyAlert : String := "Please enter a valid Monthly Bill amount."

def requestFailedAlert : String :=
  "Unable to analyze risk right now.\n\nPlease check if the backend server is running and try again."

def highExplanation : String :=
  "This customer shows patterns strongly associated with cancellation. Immediate action (e.g., offering a discount or contract upgrade) is recommended."

def mediumExplanation : String :=
  "There are some warning signs. A proactive check-in or customer service call might help improve loyalty."

def lowExplanation : String :=
  "This customer appears stable and satisfied based on their profile. No immediate churn risk detected."

/-- DOMTokenList.remove. -/
def classRemove (tokens : List String) (cl : List String) : List String :=
  cl.filter (fun c => decide (c ∉ tokens))

/-- DOMTokenList.add of one token. -/
def classAdd (t : String) (cl : List String) : List String :=
  if t ∈ cl then cl else cl ++ [t]

/-- Line 65: the percentage string. -/
def probPercent (churn_probability : JSValue) : String :=
  String.mk (toFixed (JSNumber.mul (toNumber churn_probability) (ofNat 100)) 1) ++ "%"

/-- Lines 62-96 on the page, for a result that is not null.  The assignment to
`meterFill.style.width` goes through the CSS parser `css` of the browser: on a string
that is a valid width it gives the value the property then reads, on any other
string the assignment is dropped and the width stays as it was. -/
def render (css : String → Option String) (churn_probability risk_category : JSValue)
    (p : Page) : Page :=
  let card := classRemove ["low", "medium", "high"] p.resultCard.classList
  let badge := classRemove ["badge-low", "badge-medium", "badge-high"] p.riskBadge.classList
  let pct := probPercent churn_probability
  let width := (css pct).getD p.meterFill.width
  if risk_category = JSValue.string "HIGH" then
    { p with
      resultCard := ⟨"block", classAdd "high" card⟩
      riskBadge := ⟨"HIGH RISK", classAdd "badge-high" badge⟩
      probText := pct
      meterFill := ⟨width, "var(--danger)"⟩
      resultExplanation := highExplanation }
  else if risk_category = JSValue.string "MEDIUM" then
    { p with
      resultCard := ⟨"block", classAdd "medium" card⟩
      riskBadge := ⟨"MEDIUM RISK", classAdd "badge-medium" badge⟩
      probText := pct
      meterFill := ⟨width, "var(--warning)"⟩
      resultExplanation := mediumExplanation }
  else
    { p with
      resultCard := ⟨"block", classAdd "low" card⟩
      riskBadge := ⟨"LOW RISK", classAdd "badge-low" badge⟩
      probText := pct
      meterFill := ⟨width, "var(--success)"⟩
      resultExplanation := lowExplanation }

/-- Lines 101-103: the catch block. -/
def catchBlock (err : JSError) (w : World) : World :=
  { w with consoleErrors := w.consoleErrors ++ [err], alerts := w.alerts ++ [requestFailedAlert] }

/-- Lines 55-103, once the awaited fetch has settled. -/
def tryBlock (css : String → Option String) (net : FetchOutcome) (w : World) : World :=
  match net with
  | FetchOutcome.rejected => catchBlock JSError.network w
  | FetchOutcome.response status body =>
    if responseOk status then
      match body with
      | Body.invalid => catchBlock JSError.json w
      | Body.null =>
        catchBlock JSError.type
          { w with page := { w.page with resultCard := ⟨"block", w.page.resultCard.classList⟩ } }
      | Body.result cp rc => { w with page := render css cp rc w.page, scrolls := w.scrolls + 1 }
    else catchBlock (JSError.status status) w

/-- Lines 41-44: the loading state of the button. -/
def busy (w : World) : World :=
  { w with page := { w.page with submitBtn := ⟨"Analyzing Risk...", true, "0.7"⟩ } }

/-- Lines 47-53: the call of fetch. -/
def issue (data : List (String × String)) (w : World) : World :=
  { w with requests := w.requests ++
      [⟨API_URL ++ "/predict", "POST", "application/json", payload data⟩] }

/-- Lines 105-107: the finally block. -/
def restore (originalText : String) (w : World) : World :=
  { w with page := { w.page with submitBtn := ⟨originalText, false, "1"⟩ } }

/-- The worlds the submit handler goes through, in order, for the CSS parser of the
browser, the entries of the submitted form and the way the fetch settles. -/
def submitTrace (css : String → Option String) (formData : List (String × String))
    (net : FetchOutcome) (w : World) : List World :=
  let w0 := { w with defaultPrevented := true }
  let data := fromEntries formData
  if tenureGuard data then [w0, { w0 with alerts := w0.alerts ++ [tenureAlert] }]
  else if monthlyGuard data then [w0, { w0 with alerts := w0.alerts ++ [monthlyAlert] }]
  else
    let originalText := w0.page.submitBtn.innerText
    let w1 := busy w0
    let w2 := issue data w1
    let w3 := tryBlock css net w2
    [w0, w1, w2, w3, restore originalText w3]

/-- The world in which the submit handler finishes. -/
def submitHandler (css : String → Option String) (formData : List (String × String))
    (net : FetchOutcome) (w : World) : World :=
  (submitTrace css formData net w).getLastD w

/-! ## What the claims speak of -/

/-- A form field that is missing: absent from the form, or present and empty. -/
def fieldMissing (v : Option String) : Prop := v = none ∨ v = some ""

/-- A form field that is numerically negative: its string coerces to a Number below zero. -/
def numericallyNegative (v : Option String) : Prop :=
  ∃ s, v = some s ∧ JSNumber.lt (stringToNumber s) zero = true

/-- A submission that passes validation: neither guard fires. -/
def passesValidation (formData : List (String × String)) : Prop :=
  tenureGuard (fromEntries formData) = false ∧ monthlyGuard (fromEntries formData) = false

/-- The request the handler sends for a form. -/
def requestFor (formData : List (String × String)) : Request :=
  ⟨API_URL ++ "/predict", "POST", "application/json", payload (fromEntries formData)⟩

/-- The state of the result panel: everything on the page but the submit button. -/
def resultPanel (p : Page) : ResultCard × RiskBadge × String × MeterFill × String :=
  (p.resultCard, p.riskBadge, p.probText, p.meterFill, p.resultExplanation)

/-- A width parser for concrete runs.  On a percentage written with one to five
integer digits, a point and one decimal digit it gives the shortest form, which is
what browsers read back from `style.width` ("20.0%" reads "20%"); it rejects every
other string, among them the negative percentages, "NaN%" and "Infinity%", which
browsers reject too. -/
def sampleCss (s : String) : Option String :=
  match s.toList.reverse with
  | '%' :: d :: '.' :: ri =>
    let i := ri.reverse
    if isDecDigit d ∧ i ≠ [] ∧ i.all isDecDigit ∧ i.length ≤ 5 ∧
        (i.head? ≠ some '0' ∨ i.length = 1) then
      some (String.mk (if d = '0' then i ++ ['%'] else i ++ ['.', d, '%']))
    else none
  | _ => none

/-- A page as it is on first load: the button enabled, no inline opacity, the panel hidden. -/
def freshPage : Page :=
  ⟨⟨"Predict Churn Risk", false, ""⟩, ⟨"none", ["result-card"]⟩, ⟨"", ["badge"]⟩, "", ⟨"", ""⟩, ""⟩

def freshWorld : World := ⟨freshPage, [], [], [], 0, false⟩

/-- A form with a non-numeric tenure. -/
def formAbc : List (String × String) :=
  [("tenure", "abc"), ("MonthlyCharges", "70.5"), ("Contract", "Month-to-month")]

/-- A form whose tenure starts with a negative integer and goes on with letters. -/
def formMinus : List (String × String) :=
  [("tenure", "-5abc"), ("MonthlyCharges", "70.5"), ("Contract", "Month-to-month")]

/-- A form whose tenure is a negative decimal literal too small for binary64. -/
def formTiny : List (String × String) :=
  [("tenure", "-1e-400"), ("MonthlyCharges", "70.5"), ("Contract", "Month-to-month")]

/-- A well-formed form. -/
def formGood : List (String × String) :=
  [("gender", "Female"), ("SeniorCitizen", "0"), ("tenure", "12"), ("MonthlyCharges", "70.5"),
   ("TotalCharges", ""), ("Contract", "Month-to-month")]

/-- A form with a negative tenure. -/
def formNegative : List (String × String) :=
  [("tenure", "-3"), ("MonthlyCharges", "70.5")]

/-- The four keys the object literal defines after the spread. -/
def numericKeys : List String := ["SeniorCitizen", "tenure", "MonthlyCharges", "TotalCharges"]

/-- The three tier classes of the result panel. -/
def tierClasses : List String := ["low", "medium", "high"]

/-- The three tier classes of the badge. -/
def badgeClasses : List String := ["badge-low", "badge-medium", "badge-high"]

/-- What the render step shows for a tier: the badge label, the class added to the
badge, the class added to the panel, the meter colour and the explanation. -/
def tierView (css : String → Option String) (cp rc : JSValue) (p : Page) : String × String × String × String × String :=
  ((render css cp rc p).riskBadge.innerText,
   ((render css cp rc p).riskBadge.classList.filter (fun c => decide (c ∈ badgeClasses))).headD "",
   ((render css cp rc p).resultCard.classList.filter (fun c => decide (c ∈ tierClasses))).headD "",
   (render css cp rc p).meterFill.backgroundColor,
   (render css cp rc p).resultExplanation)

/-! ## Objects -/

theorem getProp_setProp_self {α : Type} (o : List (String × α)) (k : String) (v : α) :
    getProp (setProp o k v) k = some v := by
  induction o with
  | nil => simp [setProp, getProp]
  | cons hd tl ih =>
    obtain ⟨k', v'⟩ := hd
    by_cases h : k' = k
    · simp [setProp, getProp, h]
    · simp [setProp, getProp, h, ih]

theorem getProp_setProp_ne {α : Type} (o : List (String × α)) (k k' : String) (v : α)
    (h : k' ≠ k) : getProp (setProp o k v) k' = getProp o k' := by
  induction o with
  | nil => simp [setProp, getProp, Ne.symm h]
  | cons hd tl ih =>
    obtain ⟨k₁, v₁⟩ := hd
    by_cases h₁ : k₁ = k
    · subst h₁
      simp [setProp, getProp, Ne.symm h]
    · by_cases h₂ : k₁ = k'
      · subst h₂
        simp [setProp, getProp, h₁]
      · simp [setProp, getProp, h₁, h₂, ih]

theorem getProp_map {α β : Type} (f : α → β) (o : List (String × α)) (k : String) :
    getProp (o.map (fun kv => (kv.1, f kv.2))) k = (getProp o k).map f := by
  induction o with
  | nil => simp [getProp]
  | cons hd tl ih =>
    obtain ⟨k', v'⟩ := hd
    by_cases h : k' = k
    · simp [getProp, h]
    · simp [getProp, h, ih]

theorem keys_setProp {α : Type} (o : List (String × α)) (k : String) (v : α) :
    (setProp o k v).map Prod.fst =
      if k ∈ o.map Prod.fst then o.map Prod.fst else o.map Prod.fst ++ [k] := by
  induction o with
  | nil => simp [setProp]
  | cons hd tl ih =>
    obtain ⟨k', v'⟩ := hd
    by_cases h : k' = k
    · simp [setProp, h]
    · have h' : ¬ k = k' := fun e => h e.symm
      simp only [setProp, h, if_false, List.map_cons, ih, List.mem_cons, h', false_or]
      split_ifs <;> simp

theorem nodup_setProp {α : Type} (o : List (String × α)) (k : String) (v : α)
    (h : (o.map Prod.fst).Nodup) : ((setProp o k v).map Prod.fst).Nodup := by
  rw [keys_setProp]
  split_ifs with hk
  · exact h
  · rw [List.nodup_append]
    refine ⟨h, List.nodup_singleton k, ?_⟩
    intro a ha hb
    simp only [List.mem_singleton] at hb
    subst hb
    exact hk ha

theorem mem_keys_setProp {α : Type} (o : List (String × α)) (k k' : String) (v : α) :
    k' ∈ (setProp o k v).map Prod.fst ↔ k' ∈ o.map Prod.fst ∨ k' = k := by
  rw [keys_setProp]
  split_ifs with hk
  · constructor
    · exact Or.inl
    · rintro (h | h)
      · exact h
      · subst h
        exact hk
  · simp

theorem nodup_foldl_setProp (entries : List (String × String)) (o : List (String × String))
    (h : (o.map Prod.fst).Nodup) :
    ((entries.foldl (fun o kv => setProp o kv.1 kv.2) o).map Prod.fst).Nodup := by
  induction entries generalizing o with
  | nil => simpa using h
  | cons hd tl ih =>
    simp only [List.foldl_cons]
    exact ih _ (nodup_setProp o hd.1 hd.2 h)

theorem nodup_fromEntries (entries : List (String × String)) :
    ((fromEntries entries).map Prod.fst).Nodup :=
  nodup_foldl_setProp entries [] (by simp)

theorem keys_map_string (data : List (String × String)) :
    (data.map (fun kv => (kv.1, JSValue.string kv.2))).map Prod.fst = data.map Prod.fst := by
  simp [List.map_map, Function.comp_def]

/-! ## Validation -/

theorem guard_iff (v : Option String) :
    (falsy v || ltZero v) = true ↔ fieldMissing v ∨ numericallyNegative v := by
  cases v with
  | none =>
    simp [falsy, fieldMissing]
  | some s =>
    simp [falsy, ltZero, fieldMissing, numericallyNegative]

theorem falsy_false {v : Option String} (h : falsy v = false) :
    ∃ s, v = some s ∧ s ≠ "" := by
  cases v with
  | none => simp [falsy] at h
  | some s => exact ⟨s, rfl, by simpa [falsy] using h⟩

theorem guards_of_invalid (data : List (String × String))
    (h : fieldMissing (getProp data "tenure") ∨ numericallyNegative (getProp data "tenure") ∨
      fieldMissing (getProp data "MonthlyCharges") ∨
      numericallyNegative (getProp data "MonthlyCharges")) :
    tenureGuard data = true ∨ monthlyGuard data = true := by
  rcases h with h | h | h | h
  · exact Or.inl ((guard_iff _).2 (Or.inl h))
  · exact Or.inl ((guard_iff _).2 (Or.inr h))
  · exact Or.inr ((guard_iff _).2 (Or.inl h))
  · exact Or.inr ((guard_iff _).2 (Or.inr h))

theorem trace_of_tenureGuard (css : String → Option String) (formData : List (String × String)) (net : FetchOutcome) (w : World)
    (h : tenureGuard (fromEntries formData) = true) :
    submitTrace css formData net w =
      [{ w with defaultPrevented := true },
       { w with defaultPrevented := true, alerts := w.alerts ++ [tenureAlert] }] := by
  simp [submitTrace, h]

theorem trace_of_monthlyGuard (css : String → Option String) (formData : List (String × String)) (net : FetchOutcome) (w : World)
    (h₁ : tenureGuard (fromEntries formData) = false)
    (h₂ : monthlyGuard (fromEntries formData) = true) :
    submitTrace css formData net w =
      [{ w with defaultPrevented := true },
       { w with defaultPrevented := true, alerts := w.alerts ++ [monthlyAlert] }] := by
  simp [submitTrace, h₁, h₂]

theorem trace_of_valid (css : String → Option String) (formData : List (String × String)) (net : FetchOutcome) (w : World)
    (h : passesValidation formData) :
    submitTrace css formData net w =
      [{ w with defaultPrevented := true },
       busy { w with defaultPrevented := true },
       issue (fromEntries formData) (busy { w with defaultPrevented := true }),
       tryBlock css net (issue (fromEntries formData) (busy { w with defaultPrevented := true })),
       restore w.page.submitBtn.innerText
         (tryBlock css net (issue (fromEntries formData) (busy { w with defaultPrevented := true })))] := by
  obtain ⟨h₁, h₂⟩ := h
  simp [submitTrace, h₁, h₂]

theorem handler_of_valid (css : String → Option String) (formData : List (String × String)) (net : FetchOutcome) (w : World)
    (h : passesValidation formData) :
    submitHandler css formData net w =
      restore w.page.submitBtn.innerText
        (tryBlock css net (issue (fromEntries formData) (busy { w with defaultPrevented := true }))) := by
  simp [submitHandler, trace_of_valid css formData net w h]

theorem tryBlock_requests (css : String → Option String) (net : FetchOutcome) (w : World) :
    (tryBlock css net w).requests = w.requests := by
  cases net with
  | rejected => rfl
  | response status body =>
    cases body <;> simp only [tryBlock, catchBlock] <;> split_ifs <;> rfl

/-! ## The claims -/

/-- C1: when the tenure field or the MonthlyCharges field is missing or numerically
negative, the handler ends with exactly one more alert, an InvalidInput message (the
one for tenure when the tenure guard fires, else the one for MonthlyCharges), and no
request is issued at any point of the run. -/
theorem invalid_input_aborts (css : String → Option String) (formData : List (String × String)) (net : FetchOutcome) (w : World)
    (h : fieldMissing (getProp (fromEntries formData) "tenure") ∨
      numericallyNegative (getProp (fromEntries formData) "tenure") ∨
      fieldMissing (getProp (fromEntries formData) "MonthlyCharges") ∨
      numericallyNegative (getProp (fromEntries formData) "MonthlyCharges")) :
    (submitHandler css formData net w).alerts =
      w.alerts ++ [if tenureGuard (fromEntries formData) then tenureAlert else monthlyAlert] ∧
    (submitHandler css formData net w).requests = w.requests ∧
    ∀ w' ∈ submitTrace css formData net w, w'.requests = w.requests := by
  have hg := guards_of_invalid _ h
  by_cases ht : tenureGuard (fromEntries formData) = true
  · simp [submitHandler, trace_of_tenureGuard css formData net w ht, ht]
  · have ht' : tenureGuard (fromEntries formData) = false := by simpa using ht
    have hm : monthlyGuard (fromEntries formData) = true := by
      rcases hg with hg | hg
      · exact absurd hg ht
      · exact hg
    simp [submitHandler, trace_of_monthlyGuard css formData net w ht' hm, ht']

theorem invalid_input_aborts_witness :
    numericallyNegative (getProp (fromEntries formNegative) "tenure") ∧
    ((submitHandler sampleCss formNegative FetchOutcome.rejected freshWorld).alerts =
      freshWorld.alerts ++
        [if tenureGuard (fromEntries formNegative) then tenureAlert else monthlyAlert] ∧
    (submitHandler sampleCss formNegative FetchOutcome.rejected freshWorld).requests = freshWorld.requests ∧
    ∀ w' ∈ submitTrace sampleCss formNegative FetchOutcome.rejected freshWorld,
      w'.requests = freshWorld.requests) :=
  have hneg : numericallyNegative (getProp (fromEntries formNegative) "tenure") :=
    ⟨"-3", by decide, by decide⟩
  ⟨hneg, invalid_input_aborts sampleCss formNegative FetchOutcome.rejected freshWorld (Or.inr (Or.inl hneg))⟩

/-- C9: when validation rejects the form, every world of the run has the page it
started with (the button label, disabled flag and opacity and the whole result
panel) and the requests it started with, so the loading state is never entered. -/
theorem rejected_leaves_page (css : String → Option String) (formData : List (String × String)) (net : FetchOutcome) (w : World)
    (h : ¬ passesValidation formData) :
    (∀ w' ∈ submitTrace css formData net w, w'.page = w.page ∧ w'.requests = w.requests) ∧
    (submitHandler css formData net w).page = w.page := by
  by_cases ht : tenureGuard (fromEntries formData) = true
  · simp [submitHandler, trace_of_tenureGuard css formData net w ht]
  · have ht' : tenureGuard (fromEntries formData) = false := by simpa using ht
    have hm : monthlyGuard (fromEntries formData) = true := by
      by_contra hm
      exact h ⟨ht', by simpa using hm⟩
    simp [submitHandler, trace_of_monthlyGuard css formData net w ht' hm]

theorem rejected_leaves_page_witness :
    ¬ passesValidation formNegative ∧
    ((∀ w' ∈ submitTrace sampleCss formNegative FetchOutcome.rejected freshWorld,
        w'.page = freshWorld.page ∧ w'.requests = freshWorld.requests) ∧
      (submitHandler sampleCss formNegative FetchOutcome.rejected freshWorld).page = freshWorld.page) :=
  have hrej : ¬ passesValidation formNegative := fun hp =>
    absurd hp.1 (by decide)
  ⟨hrej, rejected_leaves_page sampleCss formNegative FetchOutcome.rejected freshWorld hrej⟩

/-- C4, as the code has it: after a submission that passes validation, however the
request ends, the button has the label it had before the submission, is enabled,
and has opacity "1"; so it is as before whenever it was enabled with opacity "1". -/
theorem button_after_submission (css : String → Option String) (formData : List (String × String)) (net : FetchOutcome)
    (w : World) (h : passesValidation formData) :
    (submitHandler css formData net w).page.submitBtn = ⟨w.page.submitBtn.innerText, false, "1"⟩ ∧
    (w.page.submitBtn.disabled = false → w.page.submitBtn.opacity = "1" →
      (submitHandler css formData net w).page.submitBtn = w.page.submitBtn) := by
  have h₁ : (submitHandler css formData net w).page.submitBtn =
      ⟨w.page.submitBtn.innerText, false, "1"⟩ := by
    rw [handler_of_valid css formData net w h]
    rfl
  refine ⟨h₁, fun hd ho => ?_⟩
  rw [h₁]
  cases hb : w.page.submitBtn with
  | mk t d o =>
    rw [hb] at hd ho
    simp only at hd ho
    simp [hd, ho]

theorem formGood_valid : passesValidation formGood :=
  ⟨by decide, by decide⟩

theorem button_after_submission_witness :
    passesValidation formGood ∧
    ((submitHandler sampleCss formGood FetchOutcome.rejected freshWorld).page.submitBtn =
        ⟨freshWorld.page.submitBtn.innerText, false, "1"⟩ ∧
      (freshWorld.page.submitBtn.disabled = false → freshWorld.page.submitBtn.opacity = "1" →
        (submitHandler sampleCss formGood FetchOutcome.rejected freshWorld).page.submitBtn =
          freshWorld.page.submitBtn)) :=
  ⟨formGood_valid, button_after_submission sampleCss formGood FetchOutcome.rejected freshWorld formGood_valid⟩

/-- C4, as stated, fails: on a freshly loaded page, whose button has no inline
opacity, a valid submission leaves the opacity at "1", not at what it was. -/
theorem button_opacity_not_restored :
    passesValidation formGood ∧
    (submitHandler sampleCss formGood FetchOutcome.rejected freshWorld).page.submitBtn.opacity ≠
      freshWorld.page.submitBtn.opacity :=
  ⟨formGood_valid, by decide⟩

/-- C8: when a validated submission ends in a status outside 200-299 or in a
rejected fetch, exactly one request was issued, exactly one alert was shown, the
RequestFailed one, which differs from both InvalidInput messages, and the result
panel is, all through the run, as it was before: nothing of the render step ran. -/
theorem request_failure (css : String → Option String) (formData : List (String × String)) (net : FetchOutcome) (w : World)
    (h : passesValidation formData)
    (hn : net = FetchOutcome.rejected ∨
      ∃ status body, net = FetchOutcome.response status body ∧ responseOk status = false) :
    (submitHandler css formData net w).requests = w.requests ++ [requestFor formData] ∧
    (submitHandler css formData net w).alerts = w.alerts ++ [requestFailedAlert] ∧
    requestFailedAlert ≠ tenureAlert ∧ requestFailedAlert ≠ monthlyAlert ∧
    resultPanel (submitHandler css formData net w).page = resultPanel w.page ∧
    (submitHandler css formData net w).scrolls = w.scrolls ∧
    ∀ w' ∈ submitTrace css formData net w, resultPanel w'.page = resultPanel w.page := by
  have hne₁ : requestFailedAlert ≠ tenureAlert := by decide
  have hne₂ : requestFailedAlert ≠ monthlyAlert := by decide
  rw [handler_of_valid css formData net w h, trace_of_valid css formData net w h]
  rcases hn with hn | ⟨status, body, hn, hs⟩
  · subst hn
    refine ⟨rfl, rfl, hne₁, hne₂, rfl, rfl, ?_⟩
    intro w' hw'
    simp only [List.mem_cons, List.mem_singleton, List.not_mem_nil, or_false] at hw'
    rcases hw' with e | e | e | e | e <;> subst e <;> rfl
  · subst hn
    have ht : ∀ v : World, tryBlock css (FetchOutcome.response status body) v =
        catchBlock (JSError.status status) v := by
      intro v
      simp [tryBlock, hs]
    rw [ht]
    refine ⟨rfl, rfl, hne₁, hne₂, rfl, rfl, ?_⟩
    intro w' hw'
    simp only [List.mem_cons, List.mem_singleton, List.not_mem_nil, or_false] at hw'
    rcases hw' with e | e | e | e | e <;> subst e <;> rfl

theorem request_failure_witness :
    passesValidation formGood ∧
    (FetchOutcome.response 500 Body.invalid = FetchOutcome.rejected ∨
      ∃ status body, FetchOutcome.response 500 Body.invalid = FetchOutcome.response status body ∧
        responseOk status = false) ∧
    ((submitHandler sampleCss formGood (FetchOutcome.response 500 Body.invalid) freshWorld).requests =
        freshWorld.requests ++ [requestFor formGood] ∧
      (submitHandler sampleCss formGood (FetchOutcome.response 500 Body.invalid) freshWorld).alerts =
        freshWorld.alerts ++ [requestFailedAlert] ∧
      requestFailedAlert ≠ tenureAlert ∧ requestFailedAlert ≠ monthlyAlert ∧
      resultPanel (submitHandler sampleCss formGood (FetchOutcome.response 500 Body.invalid) freshWorld).page =
        resultPanel freshWorld.page ∧
      (submitHandler sampleCss formGood (FetchOutcome.response 500 Body.invalid) freshWorld).scrolls =
        freshWorld.scrolls ∧
      ∀ w' ∈ submitTrace sampleCss formGood (FetchOutcome.response 500 Body.invalid) freshWorld,
        resultPanel w'.page = resultPanel freshWorld.page) :=
  have hn : FetchOutcome.response 500 Body.invalid = FetchOutcome.rejected ∨
      ∃ status body, FetchOutcome.response 500 Body.invalid = FetchOutcome.response status body ∧
        responseOk status = false :=
    Or.inr ⟨500, Body.invalid, rfl, by decide⟩
  ⟨formGood_valid, hn,
    request_failure sampleCss formGood (FetchOutcome.response 500 Body.invalid) freshWorld formGood_valid hn⟩

theorem payload_get_other (data : List (String × String)) (k : String) (h : k ∉ numericKeys) :
    getProp (payload data) k = (getProp data k).map JSValue.string := by
  simp only [numericKeys, List.mem_cons, List.mem_singleton, List.not_mem_nil, or_false,
    not_or] at h
  obtain ⟨h₁, h₂, h₃, h₄⟩ := h
  simp only [payload]
  rw [getProp_setProp_ne _ _ _ _ h₄, getProp_setProp_ne _ _ _ _ h₃,
    getProp_setProp_ne _ _ _ _ h₂, getProp_setProp_ne _ _ _ _ h₁, getProp_map]

theorem payload_get_tenure (data : List (String × String)) :
    getProp (payload data) "tenure" =
      some (JSValue.number (parseInt (jsToString (getProp data "tenure")))) := by
  simp only [payload]
  rw [getProp_setProp_ne _ _ _ _ (by decide), getProp_setProp_ne _ _ _ _ (by decide),
    getProp_setProp_self]

theorem payload_get_monthly (data : List (String × String)) :
    getProp (payload data) "MonthlyCharges" =
      some (JSValue.number (parseFloat (jsToString (getProp data "MonthlyCharges")))) := by
  simp only [payload]
  rw [getProp_setProp_ne _ _ _ _ (by decide), getProp_setProp_self]

theorem payload_get_senior (data : List (String × String)) :
    getProp (payload data) "SeniorCitizen" =
      some (JSValue.number (parseInt (jsToString (getProp data "SeniorCitizen")))) := by
  simp only [payload]
  rw [getProp_setProp_ne _ _ _ _ (by decide), getProp_setProp_ne _ _ _ _ (by decide),
    getProp_setProp_ne _ _ _ _ (by decide), getProp_setProp_self]

theorem payload_get_total (data : List (String × String)) :
    getProp (payload data) "TotalCharges" =
      some (if falsy (getProp data "TotalCharges") then JSValue.number zero
        else JSValue.number (parseFloat (jsToString (getProp data "TotalCharges")))) := by
  simp only [payload]
  rw [getProp_setProp_self]

theorem payload_keys (data : List (String × String)) (k : String) :
    k ∈ (payload data).map Prod.fst ↔ k ∈ data.map Prod.fst ∨ k ∈ numericKeys := by
  simp only [payload, mem_keys_setProp, keys_map_string, numericKeys, List.mem_cons,
    List.mem_singleton, List.not_mem_nil, or_false]
  tauto

theorem payload_nodup (data : List (String × String)) (h : (data.map Prod.fst).Nodup) :
    ((payload data).map Prod.fst).Nodup := by
  simp only [payload]
  refine nodup_setProp _ _ _ (nodup_setProp _ _ _ (nodup_setProp _ _ _ (nodup_setProp _ _ _ ?_)))
  rw [keys_map_string]
  exact h

/-- C2: for a form that passes validation, the payload sent is the form mapping with
four keys overridden: tenure and SeniorCitizen by parseInt of their strings,
MonthlyCharges by parseFloat of its string, TotalCharges by parseFloat of its string,
or by 0 when it is absent or empty; every other key reads as in the form, with its
string, and the payload has the keys of the form and the four, each once. -/
theorem payload_overrides (css : String → Option String) (formData : List (String × String)) (h : passesValidation formData) :
    (∀ net w, (submitHandler css formData net w).requests =
      w.requests ++ [requestFor formData]) ∧
    (∃ s, getProp (fromEntries formData) "tenure" = some s ∧
      getProp (payload (fromEntries formData)) "tenure" = some (JSValue.number (parseInt s))) ∧
    (∃ s, getProp (fromEntries formData) "MonthlyCharges" = some s ∧
      getProp (payload (fromEntries formData)) "MonthlyCharges" =
        some (JSValue.number (parseFloat s))) ∧
    getProp (payload (fromEntries formData)) "SeniorCitizen" =
      some (JSValue.number
        (parseInt (jsToString (getProp (fromEntries formData) "SeniorCitizen")))) ∧
    (fieldMissing (getProp (fromEntries formData) "TotalCharges") →
      getProp (payload (fromEntries formData)) "TotalCharges" = some (JSValue.number zero)) ∧
    (∀ s, getProp (fromEntries formData) "TotalCharges" = some s → s ≠ "" →
      getProp (payload (fromEntries formData)) "TotalCharges" =
        some (JSValue.number (parseFloat s))) ∧
    (∀ k, k ∉ numericKeys →
      getProp (payload (fromEntries formData)) k =
        (getProp (fromEntries formData) k).map JSValue.string) ∧
    (∀ k, k ∈ (payload (fromEntries formData)).map Prod.fst ↔
      k ∈ (fromEntries formData).map Prod.fst ∨ k ∈ numericKeys) ∧
    ((payload (fromEntries formData)).map Prod.fst).Nodup := by
  have hv := h
  obtain ⟨ht, hm⟩ := h
  simp only [tenureGuard, monthlyGuard, Bool.or_eq_false_iff] at ht hm
  obtain ⟨st, hst, -⟩ := falsy_false ht.1
  obtain ⟨sm, hsm, -⟩ := falsy_false hm.1
  refine ⟨?_, ⟨st, hst, ?_⟩, ⟨sm, hsm, ?_⟩, payload_get_senior _, ?_, ?_,
    fun k hk => payload_get_other _ k hk, payload_keys _, payload_nodup _ (nodup_fromEntries _)⟩
  · intro net w
    rw [handler_of_valid css formData net w hv]
    show (tryBlock css net _).requests = _
    rw [tryBlock_requests]
    rfl
  · rw [payload_get_tenure, hst]
    rfl
  · rw [payload_get_monthly, hsm]
    rfl
  · intro hmiss
    rw [payload_get_total]
    rcases hmiss with e | e <;> rw [e] <;> rfl
  · intro s hs hne
    rw [payload_get_total, hs]
    simp [falsy, hne, jsToString]

theorem payload_overrides_witness :
    passesValidation formGood ∧
    getProp (payload (fromEntries formGood)) "Contract" =
      (getProp (fromEntries formGood) "Contract").map JSValue.string ∧
    getProp (payload (fromEntries formGood)) "TotalCharges" = some (JSValue.number zero) :=
  ⟨formGood_valid,
    (payload_overrides sampleCss formGood formGood_valid).2.2.2.2.2.2.1 "Contract" (by decide),
    (payload_overrides sampleCss formGood formGood_valid).2.2.2.2.1 (Or.inr (by decide))⟩

/-- C10: a form whose tenure is "abc" and whose MonthlyCharges passes its guard
passes validation, its payload carries NaN under tenure, and the request is issued
with that payload, however the fetch settles; the same holds with the two fields
exchanged. -/
theorem nan_is_sent (css : String → Option String) (formData : List (String × String)) (net : FetchOutcome) (w : World) :
    (getProp (fromEntries formData) "tenure" = some "abc" →
      monthlyGuard (fromEntries formData) = false →
      passesValidation formData ∧
      getProp (payload (fromEntries formData)) "tenure" = some (JSValue.number JSNumber.nan) ∧
      (submitHandler css formData net w).requests = w.requests ++ [requestFor formData]) ∧
    (getProp (fromEntries formData) "MonthlyCharges" = some "abc" →
      tenureGuard (fromEntries formData) = false →
      passesValidation formData ∧
      getProp (payload (fromEntries formData)) "MonthlyCharges" =
        some (JSValue.number JSNumber.nan) ∧
      (submitHandler css formData net w).requests = w.requests ++ [requestFor formData]) := by
  have hreq : passesValidation formData →
      (submitHandler css formData net w).requests = w.requests ++ [requestFor formData] := by
    intro hv
    rw [handler_of_valid css formData net w hv]
    show (tryBlock css net _).requests = _
    rw [tryBlock_requests]
    rfl
  constructor
  · intro ht hm
    have hv : passesValidation formData := by
      refine ⟨?_, hm⟩
      simp only [tenureGuard, ht]
      decide
    refine ⟨hv, ?_, hreq hv⟩
    rw [payload_get_tenure, ht]
    decide
  · intro hm ht
    have hv : passesValidation formData := by
      refine ⟨ht, ?_⟩
      simp only [monthlyGuard, hm]
      decide
    refine ⟨hv, ?_, hreq hv⟩
    rw [payload_get_monthly, hm]
    decide

theorem nan_is_sent_witness :
    getProp (fromEntries formAbc) "tenure" = some "abc" ∧
    monthlyGuard (fromEntries formAbc) = false ∧
    passesValidation formAbc ∧
    getProp (payload (fromEntries formAbc)) "tenure" = some (JSValue.number JSNumber.nan) ∧
    (submitHandler sampleCss formAbc FetchOutcome.rejected freshWorld).requests =
      freshWorld.requests ++ [requestFor formAbc] :=
  ⟨by decide, by decide,
    (nan_is_sent sampleCss formAbc FetchOutcome.rejected freshWorld).1 (by decide) (by decide)⟩

/-- C3 at its failing inputs: with tenure "abc" both guards pass and the payload
carries NaN under tenure; with tenure "-5abc", and with tenure "-1e-400", which
coerces to -0, both guards pass and the payload carries a negative number under
tenure, -5 and -1. -/
theorem payload_tenure_unchecked :
    passesValidation formAbc ∧
    getProp (payload (fromEntries formAbc)) "tenure" = some (JSValue.number JSNumber.nan) ∧
    passesValidation formMinus ∧
    getProp (payload (fromEntries formMinus)) "tenure" =
      some (JSValue.number (ofDecimal true 5 0)) ∧
    JSNumber.lt (ofDecimal true 5 0) zero = true ∧
    passesValidation formTiny ∧
    getProp (payload (fromEntries formTiny)) "tenure" =
      some (JSValue.number (ofDecimal true 1 0)) ∧
    JSNumber.lt (ofDecimal true 1 0) zero = true :=
  ⟨⟨by decide, by decide⟩, by decide, ⟨by decide, by decide⟩, by decide, by decide,
    ⟨by decide, by decide⟩, by decide, by decide⟩

/-! ## The render step -/

theorem filter_classRemove (tokens cl : List String) :
    (classRemove tokens cl).filter (fun c => decide (c ∈ tokens)) = [] := by
  simp only [classRemove, List.filter_filter, List.filter_eq_nil_iff]
  intro a _
  simp

theorem not_mem_classRemove (tokens cl : List String) (t : String) (h : t ∈ tokens) :
    t ∉ classRemove tokens cl := by
  simp [classRemove, h]

theorem filter_classAdd (tokens cl : List String) (t : String) (h : t ∈ tokens) :
    (classAdd t (classRemove tokens cl)).filter (fun c => decide (c ∈ tokens)) = [t] := by
  simp only [classAdd, not_mem_classRemove tokens cl t h, if_false, List.filter_append,
    filter_classRemove]
  simp [h]

/-- C5: whatever the result and whatever classes the panel and the badge had, after
the render step the panel has exactly one tier class, once, the badge has exactly
one badge class, once, and the badge class is "badge-" followed by the panel class. -/
theorem one_tier_after_render (css : String → Option String) (cp rc : JSValue) (p : Page) :
    ∃ t, t ∈ tierClasses ∧
      (render css cp rc p).resultCard.classList.filter (fun c => decide (c ∈ tierClasses)) = [t] ∧
      (render css cp rc p).riskBadge.classList.filter (fun c => decide (c ∈ badgeClasses)) =
        ["badge-" ++ t] := by
  by_cases h₁ : rc = JSValue.string "HIGH"
  · refine ⟨"high", by decide, ?_, ?_⟩
    · simp only [render, h₁, if_true]
      exact filter_classAdd tierClasses _ "high" (by decide)
    · simp only [render, h₁, if_true]
      exact filter_classAdd badgeClasses _ "badge-high" (by decide)
  · by_cases h₂ : rc = JSValue.string "MEDIUM"
    · refine ⟨"medium", by decide, ?_, ?_⟩
      · simp only [render, h₁, h₂, if_true, if_false]
        exact filter_classAdd tierClasses _ "medium" (by decide)
      · simp only [render, h₁, h₂, if_true, if_false]
        exact filter_classAdd badgeClasses _ "badge-medium" (by decide)
    · refine ⟨"low", by decide, ?_, ?_⟩
      · simp only [render, h₁, h₂, if_false]
        exact filter_classAdd tierClasses _ "low" (by decide)
      · simp only [render, h₁, h₂, if_false]
        exact filter_classAdd badgeClasses _ "badge-low" (by decide)

theorem tierView_high (css : String → Option String) (cp : JSValue) (p : Page) :
    tierView css cp (JSValue.string "HIGH") p =
      ("HIGH RISK", "badge-high", "high", "var(--danger)", highExplanation) := by
  simp only [tierView, render, if_true]
  have hb := filter_classAdd badgeClasses p.riskBadge.classList "badge-high" (by decide)
  have hc := filter_classAdd tierClasses p.resultCard.classList "high" (by decide)
  simp only [badgeClasses, tierClasses] at hb hc ⊢
  rw [hb, hc]
  rfl

theorem tierView_medium (css : String → Option String) (cp : JSValue) (p : Page) :
    tierView css cp (JSValue.string "MEDIUM") p =
      ("MEDIUM RISK", "badge-medium", "medium", "var(--warning)", mediumExplanation) := by
  have h : ¬ (JSValue.string "MEDIUM" = JSValue.string "HIGH") := by decide
  simp only [tierView, render, h, if_true, if_false]
  have hb := filter_classAdd badgeClasses p.riskBadge.classList "badge-medium" (by decide)
  have hc := filter_classAdd tierClasses p.resultCard.classList "medium" (by decide)
  simp only [badgeClasses, tierClasses] at hb hc ⊢
  rw [hb, hc]
  rfl

theorem tierView_low (css : String → Option String) (cp rc : JSValue) (p : Page) (h₁ : rc ≠ JSValue.string "HIGH")
    (h₂ : rc ≠ JSValue.string "MEDIUM") :
    tierView css cp rc p = ("LOW RISK", "badge-low", "low", "var(--success)", lowExplanation) := by
  simp only [tierView, render, h₁, h₂, if_false]
  have hb := filter_classAdd badgeClasses p.riskBadge.classList "badge-low" (by decide)
  have hc := filter_classAdd tierClasses p.resultCard.classList "low" (by decide)
  simp only [badgeClasses, tierClasses] at hb hc ⊢
  rw [hb, hc]
  rfl

/-- C6: the tier shown depends on the category token alone, not on the probability
or on the page: "HIGH" gives the label HIGH RISK, the danger colour and the
immediate-action explanation; "MEDIUM" gives MEDIUM RISK, the warning colour and the
check-in explanation; any other value gives LOW RISK, the success colour and the
no-immediate-risk explanation, among them "LOW", "UNKNOWN", "high" and a missing
token. -/
theorem tier_of_token (css : String → Option String) (cp : JSValue) (p : Page) :
    tierView css cp (JSValue.string "HIGH") p =
      ("HIGH RISK", "badge-high", "high", "var(--danger)", highExplanation) ∧
    tierView css cp (JSValue.string "MEDIUM") p =
      ("MEDIUM RISK", "badge-medium", "medium", "var(--warning)", mediumExplanation) ∧
    (∀ rc, rc ≠ JSValue.string "HIGH" → rc ≠ JSValue.string "MEDIUM" →
      tierView css cp rc p = ("LOW RISK", "badge-low", "low", "var(--success)", lowExplanation)) ∧
    (∀ rc, rc ∈ [JSValue.string "LOW", JSValue.string "UNKNOWN", JSValue.string "high",
        JSValue.string "medium", JSValue.undefined, JSValue.null] →
      tierView css cp rc p = ("LOW RISK", "badge-low", "low", "var(--success)", lowExplanation)) := by
  refine ⟨tierView_high css cp p, tierView_medium css cp p, fun rc h₁ h₂ => tierView_low css cp rc p h₁ h₂, ?_⟩
  intro rc hrc
  simp only [List.mem_cons, List.mem_singleton, List.not_mem_nil, or_false] at hrc
  rcases hrc with e | e | e | e | e | e <;> subst e <;>
    exact tierView_low css cp _ p (by decide) (by decide)

theorem tier_of_token_witness :
    JSValue.string "UNKNOWN" ≠ JSValue.string "HIGH" ∧
    JSValue.string "UNKNOWN" ≠ JSValue.string "MEDIUM" ∧
    tierView sampleCss (JSValue.number (ofDecimal false 5 (-1))) (JSValue.string "UNKNOWN") freshPage =
      ("LOW RISK", "badge-low", "low", "var(--success)", lowExplanation) :=
  ⟨by decide, by decide,
    (tier_of_token sampleCss (JSValue.number (ofDecimal false 5 (-1))) freshPage).2.2.1
      (JSValue.string "UNKNOWN") (by decide) (by decide)⟩

theorem scaleBy_pos (n d : Nat) (k : Int) (hd : 0 < d) : 0 < (scaleBy n d k).2 := by
  cases k with
  | ofNat j => simpa [scaleBy] using hd
  | negSucc j =>
    simp only [scaleBy]
    positivity

theorem scaleBy_val (n d : Nat) (k : Int) (hd : 0 < d) :
    ((scaleBy n d k).1 : ℚ) / ((scaleBy n d k).2 : ℚ) = (n : ℚ) / (d : ℚ) * (2 : ℚ) ^ k := by
  have hd' : (d : ℚ) ≠ 0 := by exact_mod_cast hd.ne'
  cases k with
  | ofNat j =>
    simp only [scaleBy, Int.ofNat_eq_coe, zpow_natCast]
    push_cast
    field_simp
  | negSucc j =>
    simp only [scaleBy, zpow_negSucc]
    push_cast
    field_simp

theorem fixedInt_near (m : Nat) (e : Int) :
    |((fixedInt m e 1 : Nat) : ℚ) - 10 * ((m : ℚ) * (2 : ℚ) ^ e)| ≤ 1 / 2 := by
  have hpos := scaleBy_pos (m * 10 ^ 1) 1 e Nat.one_pos
  have hval := scaleBy_val (m * 10 ^ 1) 1 e Nat.one_pos
  simp only [fixedInt]
  generalize scaleBy (m * 10 ^ 1) 1 e = q at hpos hval
  obtain ⟨N, D⟩ := q
  simp only at hpos hval ⊢
  have hD : (0 : ℚ) < (D : ℚ) := by exact_mod_cast hpos
  have hX : 10 * ((m : ℚ) * (2 : ℚ) ^ e) = (N : ℚ) / (D : ℚ) := by
    rw [hval]
    push_cast
    ring
  rw [hX]
  have h2D : 0 < 2 * D := by omega
  have hle : (2 * N + D) / (2 * D) * (2 * D) ≤ 2 * N + D := Nat.div_mul_le_self _ _
  have hlt : 2 * N + D < 2 * D * ((2 * N + D) / (2 * D) + 1) := Nat.lt_mul_div_succ _ h2D
  generalize (2 * N + D) / (2 * D) = n at hle hlt
  have hle' : (n : ℚ) * (2 * D) ≤ 2 * N + D := by exact_mod_cast hle
  have hlt' : (2 : ℚ) * N + D < 2 * D * (n + 1) := by exact_mod_cast hlt
  have hN : (N : ℚ) = (N : ℚ) / (D : ℚ) * (D : ℚ) := by field_simp
  generalize (N : ℚ) / (D : ℚ) = X at hN
  rw [hN] at hle' hlt'
  rw [abs_le]
  constructor
  · by_contra hc
    push_neg at hc
    nlinarith [mul_pos hD (sub_pos.2 hc)]
  · by_contra hc
    push_neg at hc
    nlinarith [mul_pos hD (sub_pos.2 hc)]

theorem natDigitsAux_fuel (f₁ f₂ n : Nat) (h₁ : n < f₁) (h₂ : n < f₂) :
    natDigitsAux f₁ n = natDigitsAux f₂ n := by
  induction f₁ generalizing f₂ n with
  | zero => omega
  | succ k ih =>
    cases f₂ with
    | zero => omega
    | succ j =>
      simp only [natDigitsAux]
      split_ifs with h
      · rfl
      · rw [ih j (n / 10) (by omega) (by omega)]

theorem natDigits_lt (n : Nat) (h : n < 10) : natDigits n = [digitChar n] := by
  simp [natDigits, natDigitsAux, h]

theorem natDigits_ge (n : Nat) (h : 10 ≤ n) :
    natDigits n = natDigits (n / 10) ++ [digitChar (n % 10)] := by
  have h' : ¬ n < 10 := by omega
  unfold natDigits
  conv_lhs => rw [natDigitsAux]
  simp only [h', if_false]
  rw [natDigitsAux_fuel n (n / 10 + 1) (n / 10) (by omega) (by omega)]

theorem natDigits_length_pos (n : Nat) : 0 < (natDigits n).length := by
  simp only [natDigits, natDigitsAux]
  split_ifs <;> simp

theorem fixedDigits_one (n : Nat) :
    fixedDigits n 1 = natDigits (n / 10) ++ ['.', digitChar (n % 10)] := by
  by_cases h : n < 10
  · have h0 : n / 10 = 0 := by omega
    have hm : n % 10 = n := by omega
    rw [h0, hm, natDigits_lt 0 (by omega)]
    simp [fixedDigits, natDigits_lt n h, zeros]
    rfl
  · have hge : 10 ≤ n := by omega
    have hl := natDigits_length_pos (n / 10)
    simp only [fixedDigits, natDigits_ge n hge]
    simp only [List.length_append, List.length_singleton]
    have h1 : ¬ ((natDigits (n / 10)).length + 1 ≤ 1) := by omega
    simp [h1]

theorem toFixed_one (neg : Bool) (m : Nat) (e : Int) (h : (m : ℚ) * (2 : ℚ) ^ e < 10 ^ 21) :
    ∃ n : Nat, |(n : ℚ) - 10 * ((m : ℚ) * (2 : ℚ) ^ e)| ≤ 1 / 2 ∧
      toFixed (JSNumber.fin neg m e) 1 =
        (if neg ∧ m ≠ 0 then ['-'] else []) ++ natDigits (n / 10) ++ ['.', digitChar (n % 10)] := by
  refine ⟨fixedInt m e 1, fixedInt_near m e, ?_⟩
  have hpos := scaleBy_pos m 1 e Nat.one_pos
  have hval := scaleBy_val m 1 e Nat.one_pos
  have hsmall : ¬ (10 ^ 21 * (scaleBy m 1 e).2 ≤ (scaleBy m 1 e).1) := by
    intro hc
    have hD : (0 : ℚ) < ((scaleBy m 1 e).2 : ℚ) := by exact_mod_cast hpos
    have hc' : (10 : ℚ) ^ 21 * ((scaleBy m 1 e).2 : ℚ) ≤ ((scaleBy m 1 e).1 : ℚ) := by
      exact_mod_cast hc
    have : (10 : ℚ) ^ 21 ≤ ((scaleBy m 1 e).1 : ℚ) / ((scaleBy m 1 e).2 : ℚ) := by
      rw [le_div_iff₀ hD]
      exact hc'
    rw [hval] at this
    simp only [Nat.cast_one, div_one] at this
    exact absurd h (not_lt.2 this)
  simp only [toFixed, hsmall, if_false, fixedDigits_one, List.append_assoc]

theorem render_probText (css : String → Option String) (cp rc : JSValue) (p : Page) :
    (render css cp rc p).probText = probPercent cp := by
  simp only [render]
  split_ifs <;> rfl

theorem render_width (css : String → Option String) (cp rc : JSValue) (p : Page) :
    (render css cp rc p).meterFill.width = (css (probPercent cp)).getD p.meterFill.width := by
  simp only [render]
  split_ifs <;> rfl

theorem toFixed_large (neg : Bool) (m : Nat) (e : Int)
    (h : (10 : ℚ) ^ 21 ≤ (m : ℚ) * (2 : ℚ) ^ e) :
    toFixed (JSNumber.fin neg m e) 1 = numberToString (JSNumber.fin neg m e) := by
  have hpos := scaleBy_pos m 1 e Nat.one_pos
  have hval := scaleBy_val m 1 e Nat.one_pos
  have hm : m ≠ 0 := by
    rintro rfl
    norm_num at h
  have hbig : 10 ^ 21 * (scaleBy m 1 e).2 ≤ (scaleBy m 1 e).1 := by
    have hD : (0 : ℚ) < ((scaleBy m 1 e).2 : ℚ) := by exact_mod_cast hpos
    have h' : (10 : ℚ) ^ 21 ≤ ((scaleBy m 1 e).1 : ℚ) / ((scaleBy m 1 e).2 : ℚ) := by
      rw [hval]
      simpa using h
    rw [le_div_iff₀ hD] at h'
    exact_mod_cast h'
  simp only [toFixed, hbig, if_true, numberToString, hm, if_false]
  cases neg <;> simp [hm]

/-- C7, as stated, fails.  For p = 1e19 the product with 100 is 10^21 and the text is
"1e+21%", which is not a number written with one decimal digit followed by "%".
For p = 0.2 the text is "20.0%" while the meter width, read through a parser that
gives the shortest form, is "20%": the two are not the same string. -/
theorem percent_text_fails :
    (render sampleCss (JSValue.number (stringToNumber "1e19")) (JSValue.string "HIGH")
      freshPage).probText = "1e+21%" ∧
    (¬ ∃ (a : List Char) (d : Char),
      (render sampleCss (JSValue.number (stringToNumber "1e19")) (JSValue.string "HIGH")
        freshPage).probText = String.mk (a ++ ['.', d]) ++ "%") ∧
    (render sampleCss (JSValue.number (stringToNumber "0.2")) (JSValue.string "LOW")
      freshPage).probText = "20.0%" ∧
    (render sampleCss (JSValue.number (stringToNumber "0.2")) (JSValue.string "LOW")
      freshPage).meterFill.width = "20%" ∧
    (render sampleCss (JSValue.number (stringToNumber "0.2")) (JSValue.string "LOW")
      freshPage).probText ≠
      (render sampleCss (JSValue.number (stringToNumber "0.2")) (JSValue.string "LOW")
        freshPage).meterFill.width := by
  have h₁ : (render sampleCss (JSValue.number (stringToNumber "1e19")) (JSValue.string "HIGH")
      freshPage).probText = "1e+21%" := by decide
  refine ⟨h₁, ?_, by decide, by decide, by decide⟩
  rintro ⟨a, d, h⟩
  rw [h₁] at h
  have h₂ := congrArg (fun t : String => t.data.reverse) h
  simp only [String.data_append, List.reverse_append] at h₂
  cases hr : a.reverse with
  | nil =>
    rw [hr] at h₂
    simp at h₂
  | cons c t =>
    rw [hr] at h₂
    simp at h₂

/-- C7, as the code has it: the probability text is toFixed(1) of the product of the
probability and 100, followed by "%", and the meter width is what the browser reads
from that same string, or what it was before when the browser rejects the string;
nothing is clamped.  When the product is finite and below 10^21 the text is the
sign, the integer part and one decimal digit of the nearest tenth; when it is 10^21
or more, infinite or NaN, the text is the Number written by Number::toString.
0.731 gives "73.1%", 0.2 gives "20.0%", 1.5 gives "150.0%", -0.2 gives "-20.0%". -/
theorem percent_text (css : String → Option String) (cp rc : JSValue) (p : Page) :
    (render css cp rc p).probText =
      String.mk (toFixed (JSNumber.mul (toNumber cp) (ofNat 100)) 1) ++ "%" ∧
    (render css cp rc p).meterFill.width =
      (css (render css cp rc p).probText).getD p.meterFill.width ∧
    (∀ neg m e, JSNumber.mul (toNumber cp) (ofNat 100) = JSNumber.fin neg m e →
      (m : ℚ) * (2 : ℚ) ^ e < 10 ^ 21 →
      ∃ n : Nat, |(n : ℚ) - 10 * ((m : ℚ) * (2 : ℚ) ^ e)| ≤ 1 / 2 ∧
        (render css cp rc p).probText =
          String.mk ((if neg ∧ m ≠ 0 then ['-'] else []) ++ natDigits (n / 10) ++
            ['.', digitChar (n % 10)]) ++ "%") ∧
    (∀ neg m e, JSNumber.mul (toNumber cp) (ofNat 100) = JSNumber.fin neg m e →
      (10 : ℚ) ^ 21 ≤ (m : ℚ) * (2 : ℚ) ^ e →
      (render css cp rc p).probText =
        String.mk (numberToString (JSNumber.fin neg m e)) ++ "%") ∧
    (JSNumber.mul (toNumber cp) (ofNat 100) = JSNumber.nan →
      (render css cp rc p).probText = "NaN%") ∧
    (∀ neg, JSNumber.mul (toNumber cp) (ofNat 100) = JSNumber.inf neg →
      (render css cp rc p).probText = if neg then "-Infinity%" else "Infinity%") ∧
    (render css (JSValue.number (stringToNumber "0.731")) rc p).probText = "73.1%" ∧
    (render css (JSValue.number (stringToNumber "0.2")) rc p).probText = "20.0%" ∧
    (render css (JSValue.number (stringToNumber "1.5")) rc p).probText = "150.0%" ∧
    (render css (JSValue.number (stringToNumber "-0.2")) rc p).probText = "-20.0%" := by
  refine ⟨?_, ?_, ?_, ?_, ?_, ?_, ?_, ?_, ?_, ?_⟩
  · rw [render_probText]
    rfl
  · rw [render_width, render_probText]
  · intro neg m e hx hlt
    obtain ⟨n, hn, hs⟩ := toFixed_one neg m e hlt
    refine ⟨n, hn, ?_⟩
    rw [render_probText, probPercent, hx, hs]
  · intro neg m e hx hge
    rw [render_probText, probPercent, hx, toFixed_large neg m e hge]
  · intro hx
    rw [render_probText, probPercent, hx]
    decide
  · intro neg hx
    rw [render_probText, probPercent, hx]
    cases neg <;> decide
  · rw [render_probText]
    decide
  · rw [render_probText]
    decide
  · rw [render_probText]
    decide
  · rw [render_probText]
    decide

theorem percent_text_witness :
    JSNumber.mul (toNumber (JSValue.number (stringToNumber "0.731"))) (ofNat 100) =
      JSNumber.fin false 5143955199387238 (-46) ∧
    ((5143955199387238 : Nat) : ℚ) * (2 : ℚ) ^ (-46 : Int) < 10 ^ 21 ∧
    ∃ n : Nat, |(n : ℚ) - 10 * (((5143955199387238 : Nat) : ℚ) * (2 : ℚ) ^ (-46 : Int))| ≤ 1 / 2 ∧
      (render sampleCss (JSValue.number (stringToNumber "0.731")) (JSValue.string "HIGH")
          freshPage).probText =
        String.mk ((if false = true ∧ 5143955199387238 ≠ 0 then ['-'] else []) ++
          natDigits (n / 10) ++ ['.', digitChar (n % 10)]) ++ "%" :=
  ⟨by decide, by norm_num,
    (percent_text sampleCss (JSValue.number (stringToNumber "0.731")) (JSValue.string "HIGH")
      freshPage).2.2.1 false 5143955199387238 (-46) (by decide) (by norm_num)⟩

end Churn
